import Mathlib

/-!
Verification development for the qwen-code provider-abstraction layer:
auth/provider resolution (validateNonInterActiveAuth.ts, contentGenerator.ts),
the OpenAI-compatible adapter (openaiAdapter.ts) with its request translation
(toMessages), streaming normalizer (generateContentStream) and token
estimation (countTokens).

JavaScript dynamic values are embedded as the inductive type JSVal; the
platform builtins JSON.parse, JSON.stringify and String() are modelled by
jsonParse, jsonStringify and jsToString below.
-/

namespace QwenCode

/-- Model of a JavaScript/JSON value (undefined-free: at every site the code
distinguishes undefined we use Option instead). -/
inductive JSVal where
  | str (s : String)
  | num (n : Int)
  | bool (b : Bool)
  | null
  | arr (xs : List JSVal)
  | obj (fields : List (String × JSVal))

/-- Truthiness of an optional JS string value: present and non-empty. -/
def optTruthy : Option String → Bool
  | some s => s ≠ ""
  | none => false

/-- JSON whitespace. -/
def isWsChar (c : Char) : Bool :=
  c = ' ' || c = '\n' || c = '\t' || c = '\r'

/-- Drop leading JSON whitespace. -/
def skipWs : List Char → List Char
  | [] => []
  | c :: cs => if isWsChar c then skipWs cs else c :: cs

/-- Translate a JSON string escape character. -/
def escChar (c : Char) : Char :=
  if c = 'n' then '\n'
  else if c = 't' then '\t'
  else if c = 'r' then '\r'
  else c

/-- Parse the body of a JSON string after the opening quote; returns the
string contents and the remaining input. -/
def parseStringChars : List Char → Option (List Char × List Char)
  | [] => none
  | '"' :: cs => some ([], cs)
  | '\\' :: e :: cs => (parseStringChars cs).map (fun r => (escChar e :: r.1, r.2))
  | c :: cs => (parseStringChars cs).map (fun r => (c :: r.1, r.2))

/-- Decimal digits to a natural number. -/
def digitsToNat (ds : List Char) : Nat :=
  ds.foldl (fun n c => n * 10 + (c.toNat - 48)) 0

/-- Parse at least one decimal digit. -/
def parseDigits (cs : List Char) : Option (Nat × List Char) :=
  let ds := cs.takeWhile Char.isDigit
  if ds.isEmpty then none else some (digitsToNat ds, cs.dropWhile Char.isDigit)

/-- Parse an (integer) JSON number. -/
def parseNumber : List Char → Option (Int × List Char)
  | '-' :: cs => (parseDigits cs).map (fun r => (-(r.1 : Int), r.2))
  | cs => (parseDigits cs).map (fun r => ((r.1 : Int), r.2))

mutual

/-- Parse one JSON value (fuel-indexed recursive-descent). -/
def parseVal : Nat → List Char → Option (JSVal × List Char)
  | 0, _ => none
  | Nat.succ fuel, cs =>
    match skipWs cs with
    | '\x7b' :: cs1 =>
      (match skipWs cs1 with
       | '\x7d' :: rest => some (JSVal.obj [], rest)
       | cs2 => (parseMembers fuel cs2).map (fun r => (JSVal.obj r.1, r.2)))
    | '[' :: cs1 =>
      (match skipWs cs1 with
       | ']' :: rest => some (JSVal.arr [], rest)
       | cs2 => (parseElems fuel cs2).map (fun r => (JSVal.arr r.1, r.2)))
    | '"' :: cs1 => (parseStringChars cs1).map (fun r => (JSVal.str (String.mk r.1), r.2))
    | 't' :: 'r' :: 'u' :: 'e' :: rest => some (JSVal.bool true, rest)
    | 'f' :: 'a' :: 'l' :: 's' :: 'e' :: rest => some (JSVal.bool false, rest)
    | 'n' :: 'u' :: 'l' :: 'l' :: rest => some (JSVal.null, rest)
    | cs1 => (parseNumber cs1).map (fun r => (JSVal.num r.1, r.2))

/-- Parse one or more JSON object members up to the closing brace. -/
def parseMembers : Nat → List Char → Option (List (String × JSVal) × List Char)
  | 0, _ => none
  | Nat.succ fuel, cs =>
    match skipWs cs with
    | '"' :: cs1 =>
      (match parseStringChars cs1 with
       | none => none
       | some (key, rest) =>
         match skipWs rest with
         | ':' :: rest1 =>
           (match parseVal fuel rest1 with
            | none => none
            | some (v, rest2) =>
              match skipWs rest2 with
              | ',' :: rest3 =>
                (parseMembers fuel rest3).map
                  (fun r => ((String.mk key, v) :: r.1, r.2))
              | '\x7d' :: rest3 => some ([(String.mk key, v)], rest3)
              | _ => none)
         | _ => none)
    | _ => none

/-- Parse one or more JSON array elements up to the closing bracket. -/
def parseElems : Nat → List Char → Option (List JSVal × List Char)
  | 0, _ => none
  | Nat.succ fuel, cs =>
    match parseVal fuel cs with
    | none => none
    | some (v, rest) =>
      match skipWs rest with
      | ',' :: rest1 => (parseElems fuel rest1).map (fun r => (v :: r.1, r.2))
      | ']' :: rest1 => some ([v], rest1)
      | _ => none

end

/-- Model of JSON.parse: succeeds only when the whole input is one JSON
value (plus whitespace); any syntax error yields none (the JS exception). -/
def jsonParse (s : String) : Option JSVal :=
  match parseVal (s.length + 1) s.data with
  | some (v, rest) => if (skipWs rest).isEmpty then some v else none
  | none => none

mutual

/-- Model of JSON.stringify on JSVal. -/
def jsonStringify : JSVal → String
  | JSVal.str s => "\"" ++ s ++ "\""
  | JSVal.num n => toString n
  | JSVal.bool b => if b then "true" else "false"
  | JSVal.null => "null"
  | JSVal.arr xs => "[" ++ stringifyElems xs ++ "]"
  | JSVal.obj fs => "\x7b" ++ stringifyMembers fs ++ "\x7d"

/-- Comma-joined serialized array elements. -/
def stringifyElems : List JSVal → String
  | [] => ""
  | [x] => jsonStringify x
  | x :: xs => jsonStringify x ++ "," ++ stringifyElems xs

/-- Comma-joined serialized object members. -/
def stringifyMembers : List (String × JSVal) → String
  | [] => ""
  | [(k, v)] => "\"" ++ k ++ "\":" ++ jsonStringify v
  | (k, v) :: fs => "\"" ++ k ++ "\":" ++ jsonStringify v ++ "," ++ stringifyMembers fs

end

mutual

/-- Model of the JS String() conversion. -/
def jsToString : JSVal → String
  | JSVal.str s => s
  | JSVal.num n => toString n
  | JSVal.bool b => if b then "true" else "false"
  | JSVal.null => "null"
  | JSVal.obj _ => "[object Object]"
  | JSVal.arr xs => jsToStringElems xs

/-- Array.prototype.toString: elements joined by commas, null rendered as
the empty string inside a join. -/
def jsToStringElems : List JSVal → String
  | [] => ""
  | [JSVal.null] => ""
  | [x] => jsToString x
  | JSVal.null :: xs => "," ++ jsToStringElems xs
  | x :: xs => jsToString x ++ "," ++ jsToStringElems xs

end

/-! Internal content model (the Gemini-style request shape consumed by the
adapter): a content has a role and ordered parts, each part carrying exactly
one semantic payload (text, functionCall, or functionResponse). -/

/-- One part of an InternalContent message. -/
inductive Part where
  | text (s : String)
  | functionCall (name : String) (args : JSVal)
  | functionResponse (id : String) (response : JSVal)

/-- One InternalContent message. -/
structure Content where
  role : String
  parts : List Part

/-- Provider (OpenAI-style) chat message produced by toMessages. -/
structure Message where
  role : String
  tool_call_id : Option String
  content : String
deriving DecidableEq

/-- Model of c.parts.find(p => p.functionResponse): the first part carrying
a functionResponse, as (id, response payload). -/
def findFunctionResponse : List Part → Option (String × JSVal)
  | [] => none
  | Part.functionResponse i r :: _ => some (i, r)
  | _ :: ps => findFunctionResponse ps

/-- Model of c.parts.find(p => p.functionCall): the first part carrying a
functionCall, as (name, args). -/
def findFunctionCall : List Part → Option (String × JSVal)
  | [] => none
  | Part.functionCall n a :: _ => some (n, a)
  | _ :: ps => findFunctionCall ps

/-- Text of a part, or the empty string (p.text or two quotes). -/
def partText : Part → String
  | Part.text s => s
  | _ => ""

/-- Model of the property lookup used for the in-operator and field access
on a functionResponse payload object. -/
def jsField (key : String) : List (String × JSVal) → Option JSVal
  | [] => none
  | (k, v) :: fs => if k = key then some v else jsField key fs

/-- Stringification of a functionResponse payload, from openaiAdapter.ts
toMessages lines 112 to 126: a string payload is used as-is; a truthy object
payload is searched for an output field, then a content field, else
JSON.stringify of the whole payload; everything else is JSON.stringify-ed
(arrays have typeof object but contain neither field, so they serialize
whole; null is falsy and serializes to the string null). -/
def responseContent : JSVal → String
  | JSVal.str s => s
  | JSVal.obj fs =>
    (match jsField "output" fs with
     | some v => jsToString v
     | none =>
       match jsField "content" fs with
       | some v => jsToString v
       | none => jsonStringify (JSVal.obj fs))
  | JSVal.arr xs => jsonStringify (JSVal.arr xs)
  | v => jsonStringify v

/-- Translation of one InternalContent message, from openaiAdapter.ts
toMessages (lines 94 to 151): role model becomes assistant; a part with a
functionResponse forces role tool with tool_call_id the response id and
content per responseContent; else a functionCall part is serialized as the
content; else text parts are concatenated (empty content preserved). -/
def toMessage (c : Content) : Message :=
  let baseRole := if c.role = "model" then "assistant" else c.role
  match findFunctionResponse c.parts with
  | some (i, r) =>
    { role := "tool", tool_call_id := some i, content := responseContent r }
  | none =>
    match findFunctionCall c.parts with
    | some (n, a) =>
      { role := baseRole, tool_call_id := none,
        content := jsonStringify (JSVal.obj [("name", JSVal.str n), ("args", a)]) }
    | none =>
      { role := baseRole, tool_call_id := none,
        content := String.join (c.parts.map partText) }

/-- Model of toMessages over a whole contents array. -/
def toMessages (contents : List Content) : List Message :=
  contents.map toMessage

/-! countTokens, from openaiAdapter.ts lines 523 to 532: the estimate reads
only the text of the first part of the first content (or the empty string)
and returns ceil(length / 4). -/

/-- The text countTokens actually measures: contents[0].parts[0].text
or the empty string. -/
def countTokensText (contents : List Content) : String :=
  match contents with
  | [] => ""
  | first :: _ =>
    match first.parts with
    | [] => ""
    | p :: _ => partText p

/-- Model of countTokens: Math.ceil(text.length / 4). -/
def countTokens (contents : List Content) : Nat :=
  ((countTokensText contents).length + 3) / 4

/-- Total text carried by a request: every text part of every content,
concatenated (used to state monotonicity in carried input text). -/
def totalInputText (contents : List Content) : String :=
  String.join (contents.map (fun c => String.join (c.parts.map partText)))

/-! Streaming normalizer, from openaiAdapter.ts generateContentStream
(lines 360 to 521). Chunk fields model chunk.choices[0].delta.tool_calls,
chunk.choices[0].delta.content and chunk.choices[0].finish_reason. The
name and arguments delta fields are plain strings with the empty string
standing for an absent or empty value: every use in the source is behind a
truthiness test or a fallback to the empty string, under which undefined
and the empty string behave identically. -/

/-- One entry of a tool-call delta inside a streamed chunk. -/
structure ToolCallDelta where
  index : Nat
  name : String
  arguments : String
  id : Option String

/-- One streamed provider chunk. -/
structure Chunk where
  tool_calls : Option (List ToolCallDelta)
  content : String
  finish_reason : Option String

/-- One accumulated tool-call fragment of the toolCallsBuffer. -/
structure ToolCallFragment where
  index : Nat
  name : String
  arguments : String
  id : Option String
deriving DecidableEq

/-- The mutable state captured by the generator closure. -/
structure StreamState where
  toolCallsBuffer : List ToolCallFragment
  accumulatedText : String
  hasToolCalls : Bool
deriving DecidableEq

/-- The initial closure state. -/
def initState : StreamState := { toolCallsBuffer := [], accumulatedText := "", hasToolCalls := false }

/-- An emitted function call (name, parsed args, id). -/
structure FunctionCall where
  name : String
  args : JSVal
  id : Option String

/-- One element of the emitted candidates[0].content.parts array. -/
inductive RespPart where
  | text (s : String)
  | functionCall (name : String) (args : JSVal)

/-- The emitted response record (the fields the normalizer fills). -/
structure GenResponse where
  parts : List RespPart
  finishReason : Option String
  text : String
  functionCalls : Option (List FunctionCall)

/-- Merge one tool-call delta into the fragment buffer by position index
(lines 409 to 430): update the first fragment whose index matches
(overwrite name and id when truthy, append arguments), else push a new
fragment at the end. -/
def mergeToolCall : List ToolCallFragment → ToolCallDelta → List ToolCallFragment
  | [], d => [{ index := d.index, name := d.name, arguments := d.arguments, id := d.id }]
  | tc :: rest, d =>
    if tc.index = d.index then
      { tc with
        name := if d.name ≠ "" then d.name else tc.name,
        arguments := if d.arguments ≠ "" then tc.arguments ++ d.arguments else tc.arguments,
        id := if optTruthy d.id then d.id else tc.id } :: rest
    else tc :: mergeToolCall rest d

/-- Fold all delta entries of one chunk into the buffer (line 408). -/
def mergeDeltas (buf : List ToolCallFragment) (c : Chunk) : List ToolCallFragment :=
  match c.tool_calls with
  | some ds => ds.foldl mergeToolCall buf
  | none => buf

/-- The hasToolCalls flag after a chunk: set when the chunk carries a
tool_calls delta array (line 407). -/
def nextHasToolCalls (h : Bool) (c : Chunk) : Bool :=
  h || c.tool_calls.isSome

/-- The accumulated text after a chunk (lines 435 to 437). -/
def nextText (t : String) (c : Chunk) : String :=
  if c.content ≠ "" then t ++ c.content else t

/-- Completion test (lines 440 to 441): finish_reason stop or tool_calls. -/
def chunkIsDone (c : Chunk) : Bool :=
  c.finish_reason = some "stop" || c.finish_reason = some "tool_calls"

/-- Emission of one buffered fragment (lines 445 to 462): arguments are
JSON-parsed, a missing or unparseable arguments text degrading to the empty
object. -/
def emitCall (tc : ToolCallFragment) : FunctionCall :=
  { name := tc.name,
    args := if tc.arguments ≠ "" then (jsonParse tc.arguments).getD (JSVal.obj []) else JSVal.obj [],
    id := tc.id }

/-- The functionCalls field of an emission: every buffered fragment mapped
through emitCall, or undefined when the buffer is empty (lines 445, 463). -/
def buildFunctionCalls (buf : List ToolCallFragment) : Option (List FunctionCall) :=
  if buf.length > 0 then some (buf.map emitCall) else none

/-- The parts array of an emission (lines 466 to 478): the accumulated text
when non-empty, then a single functionCall part built from the first
emitted call only. -/
def buildParts (text : String) (fcs : Option (List FunctionCall)) : List RespPart :=
  (if text ≠ "" then [RespPart.text text] else []) ++
    (match fcs with
     | some (fc :: _) => [RespPart.functionCall fc.name fc.args]
     | _ => [])

/-- The emitted response record (lines 482 to 499); empty parts fall back
to a single empty text part. -/
def buildResponse (text : String) (fcs : Option (List FunctionCall))
    (fin : Option String) : GenResponse :=
  let parts := buildParts text fcs
  { parts := if parts.isEmpty then [RespPart.text ""] else parts,
    finishReason := fin,
    text := text,
    functionCalls := fcs }

/-- Processing of one chunk (the loop body, lines 404 to 513): merge tool
deltas, accumulate text, then emit when completion is signaled or, with no
tool calls in progress, when a content delta arrived and the text buffer
has reached 10 characters. A completion flush resets the whole state; an
interim flush clears only the text buffer. -/
def processChunk (s : StreamState) (c : Chunk) : StreamState × Option GenResponse :=
  let buf := mergeDeltas s.toolCallsBuffer c
  let htc := nextHasToolCalls s.hasToolCalls c
  let txt := nextText s.accumulatedText c
  let isDone := chunkIsDone c
  if isDone || (!htc && c.content ≠ "") then
    if isDone || txt.length ≥ 10 then
      ((if isDone then initState
        else { toolCallsBuffer := buf, accumulatedText := "", hasToolCalls := htc }),
       some (buildResponse txt (buildFunctionCalls buf) c.finish_reason))
    else ({ toolCallsBuffer := buf, accumulatedText := txt, hasToolCalls := htc }, none)
  else ({ toolCallsBuffer := buf, accumulatedText := txt, hasToolCalls := htc }, none)

/-- Run the normalizer over a chunk sequence, returning the final state and
the emitted responses in order. -/
def runStreamAux (s : StreamState) : List Chunk → StreamState × List GenResponse
  | [] => (s, [])
  | c :: cs =>
    match processChunk s c with
    | (s1, some r) =>
      let (s2, rs) := runStreamAux s1 cs
      (s2, r :: rs)
    | (s1, none) => runStreamAux s1 cs

/-- The emitted response sequence of a whole stream. -/
def runStream (chunks : List Chunk) : List GenResponse :=
  (runStreamAux initState chunks).2

/-! Sampling parameter forwarding, from openaiAdapter.ts generateContent
(lines 278 to 286) and generateContentStream (lines 373 to 381), an
identical block in both paths: of the sampling parameters a request config
may carry (the samplingParams vocabulary of ContentGeneratorConfig lists
top_p, top_k, repetition_penalty, presence_penalty, frequency_penalty,
temperature, max output tokens), the adapter forwards temperature,
maxOutputTokens (renamed max_tokens) and top_p, each only when present
(strict undefined checks, so present zero values are forwarded too).
Numeric values are copied verbatim; Int stands in for the JS number. -/

/-- The sampling-relevant fields of the request config record consulted by
the adapter; fields the adapter never reads are carried to state what is
dropped. -/
structure RequestConfig where
  temperature : Option Int
  maxOutputTokens : Option Int
  top_p : Option Int
  top_k : Option Int
  presence_penalty : Option Int
  frequency_penalty : Option Int
  repetition_penalty : Option Int

/-- The sampling key-value pairs written onto the outbound provider request
by the adapter, in source order. -/
def buildSamplingParams (config : Option RequestConfig) : List (String × Int) :=
  match config with
  | none => []
  | some cfg =>
    (match cfg.temperature with | some v => [("temperature", v)] | none => []) ++
      (match cfg.maxOutputTokens with | some v => [("max_tokens", v)] | none => []) ++
      (match cfg.top_p with | some v => [("top_p", v)] | none => [])

/-! Auth resolution, from the validateNonInterActiveAuth module of the
repository (the variant carrying the resolution logic): getAuthTypeFromEnv
and validateNonInteractiveAuth. The later steps of the source function
(validateAuthMethod and refreshAuth) live in modules outside this layer;
the embedding covers the resolution of the effective auth type and the
unresolved-auth exit, which is modelled as an error value standing for
process.exit(1). -/

/-- The AuthType enum of contentGenerator.ts. -/
inductive AuthType where
  | LOGIN_WITH_GOOGLE
  | USE_GEMINI
  | USE_VERTEX_AI
  | CLOUD_SHELL
  | USE_OPENAI
deriving DecidableEq

/-- The environment variables consulted by getAuthTypeFromEnv. -/
structure AuthEnv where
  GOOGLE_GENAI_USE_GCA : Option String
  GOOGLE_GENAI_USE_VERTEXAI : Option String
  GEMINI_API_KEY : Option String
  OPENAI_API_KEY : Option String

/-- Model of getAuthTypeFromEnv (lines 11 to 25): the Google-OAuth flag,
then the Vertex flag, then a Gemini key, then an OpenAI key, else
undefined. -/
def getAuthTypeFromEnv (env : AuthEnv) : Option AuthType :=
  if env.GOOGLE_GENAI_USE_GCA = some "true" then some AuthType.LOGIN_WITH_GOOGLE
  else if env.GOOGLE_GENAI_USE_VERTEXAI = some "true" then some AuthType.USE_VERTEX_AI
  else if optTruthy env.GEMINI_API_KEY then some AuthType.USE_GEMINI
  else if optTruthy env.OPENAI_API_KEY then some AuthType.USE_OPENAI
  else none

/-- The fatal resolution failure (the process.exit(1) path when no auth
method can be determined). -/
inductive AuthError where
  | unresolvedAuth
deriving DecidableEq

/-- Model of validateNonInteractiveAuth (lines 27 to 54): an explicit
non-gemini provider maps openai, deepseek and ollama to USE_OPENAI;
otherwise the configured auth type, falling back to the environment
derivation; no effective auth type is a fatal unresolved-auth exit. -/
def validateNonInteractiveAuth (configuredAuthType : Option AuthType)
    (provider : Option String) (env : AuthEnv) : Except AuthError AuthType :=
  let effectiveAuthType :=
    if optTruthy provider && provider ≠ some "gemini" then
      if provider = some "openai" then some AuthType.USE_OPENAI
      else if provider = some "deepseek" || provider = some "ollama" then
        some AuthType.USE_OPENAI
      else configuredAuthType
    else
      match configuredAuthType with
      | some t => some t
      | none => getAuthTypeFromEnv env
  match effectiveAuthType with
  | none => Except.error AuthError.unresolvedAuth
  | some t => Except.ok t

/-! Generator factory, from createContentGenerator of contentGenerator.ts:
provider dispatch to the OpenAI-compatible generator (openai, deepseek,
ollama) with per-alias default models and base URLs, then the authType
branches. The OpenAIContentGenerator collaborator lives outside this
layer, so a constructed generator is represented by its constructor
arguments. -/

/-- JS a or-else b on an optional string (empty string is falsy). -/
def jsOrOpt (a b : Option String) : Option String :=
  if optTruthy a then a else b

/-- JS a or-else b with a string default. -/
def jsOr (a : Option String) (b : String) : String :=
  match a with
  | some s => if s = "" then b else s
  | none => b

/-- The inputs of createContentGenerator read from ContentGeneratorConfig. -/
structure CGConfig where
  model : String
  apiKey : Option String
  baseURL : Option String
  provider : Option String
  authType : Option AuthType
  vertexai : Option Bool

/-- The environment variables consulted by createContentGenerator. -/
structure FactoryEnv where
  GEMINI_PROVIDER : Option String
  OPENAI_API_MODEL : Option String
  OPENAI_BASE_URL : Option String
  DEEPSEEK_API_MODEL : Option String
  DEEPSEEK_API_BASE : Option String
  OLLAMA_MODEL : Option String
  OLLAMA_BASE_URL : Option String

/-- The constructor arguments handed to OpenAIContentGenerator. -/
structure OpenAIContentGeneratorArgs where
  apiKey : String
  model : String
  provider : Option String
  baseURL : Option String
deriving DecidableEq

/-- The generator a factory branch constructs. -/
inductive Generator where
  | openaiCompat (args : OpenAIContentGeneratorArgs)
  | googleGenAI (apiKey : Option String) (vertexai : Option Bool)
  | codeAssist (authType : AuthType)
deriving DecidableEq

/-- Construction failures thrown by createContentGenerator. -/
inductive FactoryError where
  | openaiKeyRequired
  | deepseekKeyRequired
  | unsupported
deriving DecidableEq

/-- JS string-or fallback on a required string field. -/
def strOr (a : String) (b : String) : String :=
  if a = "" then b else a

/-- Model of createContentGenerator: the three provider branches, then the
authType branches, else the unsupported-provider error. The ollama branch
accepts an empty API key and appends the /v1 path suffix to the resolved
base URL unconditionally. -/
def createContentGenerator (config : CGConfig) (env : FactoryEnv) :
    Except FactoryError Generator :=
  let provider := jsOr (jsOrOpt config.provider env.GEMINI_PROVIDER) "gemini"
  if provider = "openai" then
    if !optTruthy config.apiKey then Except.error FactoryError.openaiKeyRequired
    else Except.ok (Generator.openaiCompat
      { apiKey := config.apiKey.getD "",
        model := strOr config.model (jsOr env.OPENAI_API_MODEL "gpt-3.5-turbo"),
        provider := some "openai",
        baseURL := some (jsOr (jsOrOpt config.baseURL env.OPENAI_BASE_URL)
          "https://api.openai.com/v1") })
  else if provider = "deepseek" then
    if !optTruthy config.apiKey then Except.error FactoryError.deepseekKeyRequired
    else Except.ok (Generator.openaiCompat
      { apiKey := config.apiKey.getD "",
        model := strOr config.model (jsOr env.DEEPSEEK_API_MODEL "deepseek-chat"),
        provider := some "deepseek",
        baseURL := some (jsOr (jsOrOpt config.baseURL env.DEEPSEEK_API_BASE)
          "https://api.deepseek.com/v1") })
  else if provider = "ollama" then
    Except.ok (Generator.openaiCompat
      { apiKey := "",
        model := strOr config.model (jsOr env.OLLAMA_MODEL "llama2"),
        provider := some "ollama",
        baseURL := some (jsOr (jsOrOpt config.baseURL env.OLLAMA_BASE_URL)
          "http://localhost:11434" ++ "/v1") })
  else if config.authType = some AuthType.LOGIN_WITH_GOOGLE
      || config.authType = some AuthType.CLOUD_SHELL then
    Except.ok (Generator.codeAssist (config.authType.getD AuthType.LOGIN_WITH_GOOGLE))
  else if config.authType = some AuthType.USE_GEMINI
      || config.authType = some AuthType.USE_VERTEX_AI then
    Except.ok (Generator.googleGenAI
      (if config.apiKey = some "" then none else config.apiKey) config.vertexai)
  else if config.authType = some AuthType.USE_OPENAI then
    if !optTruthy config.apiKey then Except.error FactoryError.openaiKeyRequired
    else Except.ok (Generator.openaiCompat
      { apiKey := config.apiKey.getD "",
        model := config.model,
        provider := config.provider,
        baseURL := config.baseURL })
  else Except.error FactoryError.unsupported

/-! The adapter-side base URL normalization, from openaiAdapter.ts
getOpenAI (lines 48 to 92): the ollama and local cases append /v1 only
when the configured base URL does not already end with it, stripping
trailing slashes first; the openai and deepseek cases leave the URL
unchanged. -/

/-- Drop every trailing slash (the replace of a trailing run of slashes
with the empty string). -/
def stripTrailingSlashes (s : String) : String :=
  String.mk (s.data.reverse.dropWhile (fun c => c = '/')).reverse

/-- Model of the JS endsWith test used on base URLs. -/
def strEndsWith (s suf : String) : Bool :=
  decide (suf.length ≤ s.length) && s.data.drop (s.length - suf.length) == suf.data

/-- The base URL the adapter hands to the HTTP client. -/
def getOpenAIBaseURL (provider : String) (baseUrl : String) : String :=
  if provider = "ollama" || provider = "local" then
    if strEndsWith baseUrl "/v1" then baseUrl
    else stripTrailingSlashes baseUrl ++ "/v1"
  else baseUrl

/-! Concrete scenario data used by the claim theorems. -/

/-- The functionCall parts of an emitted parts array, in order. -/
def respPartCalls : List RespPart → List RespPart
  | [] => []
  | RespPart.functionCall n a :: ps => RespPart.functionCall n a :: respPartCalls ps
  | _ :: ps => respPartCalls ps

/-- A stream whose index-0 arguments text arrives split across three
chunks, followed by a tool_calls finish chunk. -/
def reassemblyChunks : List Chunk :=
  [ { tool_calls := some [{ index := 0, name := "", arguments := "\x7b\"a\":", id := none }],
      content := "", finish_reason := none },
    { tool_calls := some [{ index := 0, name := "", arguments := "1,\"b\":", id := none }],
      content := "", finish_reason := none },
    { tool_calls := some [{ index := 0, name := "", arguments := "2\x7d", id := none }],
      content := "", finish_reason := none },
    { tool_calls := none, content := "", finish_reason := some "tool_calls" } ]

/-- A stream with an interim text flush (11 characters, no tool calls in
progress) followed by split tool-call argument deltas and a completion. -/
def interimFlushChunks : List Chunk :=
  [ { tool_calls := none, content := "helloworld!", finish_reason := none },
    { tool_calls := some [{ index := 0, name := "f", arguments := "\x7b\"x\":", id := some "id1" }],
      content := "", finish_reason := none },
    { tool_calls := some [{ index := 0, name := "", arguments := "7\x7d", id := none }],
      content := "", finish_reason := none },
    { tool_calls := none, content := "", finish_reason := some "tool_calls" } ]

/-- A stream whose only tool-call fragment holds malformed (truncated)
JSON at completion, followed by a further text chunk. -/
def malformedChunks : List Chunk :=
  [ { tool_calls := some [{ index := 0, name := "g", arguments := "\x7b\"a\":", id := some "id9" }],
      content := "", finish_reason := none },
    { tool_calls := none, content := "", finish_reason := some "tool_calls" },
    { tool_calls := none, content := "text after the bad call", finish_reason := none } ]

/-- A request carrying 8 characters of text in one part. -/
def reqSingle : List Content := [{ role := "user", parts := [Part.text "aaaaaaaa"] }]

/-- A request carrying 11 characters of text, split so only 1 character
sits in the first part. -/
def reqSplit : List Content :=
  [{ role := "user", parts := [Part.text "a", Part.text "aaaaaaaaaa"] }]

/-- An environment with none of the factory variables set. -/
def envNone : FactoryEnv :=
  { GEMINI_PROVIDER := none, OPENAI_API_MODEL := none, OPENAI_BASE_URL := none,
    DEEPSEEK_API_MODEL := none, DEEPSEEK_API_BASE := none,
    OLLAMA_MODEL := none, OLLAMA_BASE_URL := none }

/-- An ollama config with no API key and no base URL override. -/
def ollamaNoKeyConfig : CGConfig :=
  { model := "", apiKey := none, baseURL := none, provider := some "ollama",
    authType := none, vertexai := none }

/-- An ollama config with no API key whose base URL already ends in /v1. -/
def ollamaV1Config : CGConfig :=
  { model := "", apiKey := none, baseURL := some "http://localhost:11434/v1",
    provider := some "ollama", authType := none, vertexai := none }

/-- A request config whose only present sampling parameter is top_k. -/
def topKOnlyConfig : RequestConfig :=
  { temperature := none, maxOutputTokens := none, top_p := none, top_k := some 40,
    presence_penalty := none, frequency_penalty := none, repetition_penalty := none }

/-- A mid-stream state holding two accumulated tool-call fragments. -/
def twoFragState : StreamState :=
  { toolCallsBuffer :=
      [{ index := 0, name := "f1", arguments := "\x7b\x7d", id := some "a" },
       { index := 1, name := "f2", arguments := "\x7b\x7d", id := some "b" }],
    accumulatedText := "", hasToolCalls := true }

/-- A bare completion chunk with finish reason tool_calls. -/
def doneChunk : Chunk :=
  { tool_calls := none, content := "", finish_reason := some "tool_calls" }

/-- The response emitted from twoFragState on doneChunk. -/
def twoCallResponse : GenResponse :=
  { parts := [RespPart.functionCall "f1" (JSVal.obj [])],
    finishReason := some "tool_calls", text := "",
    functionCalls := some
      [{ name := "f1", args := JSVal.obj [], id := some "a" },
       { name := "f2", args := JSVal.obj [], id := some "b" }] }

/-- C1: a stream whose tool-call delta chunks carry the index-0 arguments
text split across three chunks, followed by a finish-reason tool_calls
chunk, makes the streaming normalizer emit exactly one response, and that
response's first function call carries the parsed object with a mapped to
1 and b mapped to 2. -/
theorem claim_C1_stream_reassembly :
    runStream reassemblyChunks =
      [{ parts := [RespPart.functionCall "" (JSVal.obj [("a", JSVal.num 1), ("b", JSVal.num 2)])],
         finishReason := some "tool_calls",
         text := "",
         functionCalls := some [{ name := "",
                                  args := JSVal.obj [("a", JSVal.num 1), ("b", JSVal.num 2)],
                                  id := none }] }] := rfl

/-- C2: after any emission the accumulated text buffer is cleared; on a
non-completion chunk the tool-call fragment buffer and the in-progress
flag are never cleared (emission or not, they keep their merged values);
a completion chunk always emits and resets the whole state; and in the
concrete interim-flush scenario the text flush at the 10-character
threshold is followed by a completion flush that still reports the
correctly merged tool-call arguments accumulated around it. -/
theorem claim_C2_reset_semantics :
    (∀ (s : StreamState) (c : Chunk),
        ((processChunk s c).2).isSome = true →
        ((processChunk s c).1).accumulatedText = "")
    ∧ (∀ (s : StreamState) (c : Chunk),
        chunkIsDone c = false →
        ((processChunk s c).1).toolCallsBuffer = mergeDeltas s.toolCallsBuffer c
          ∧ ((processChunk s c).1).hasToolCalls = nextHasToolCalls s.hasToolCalls c)
    ∧ (∀ (s : StreamState) (c : Chunk),
        chunkIsDone c = true →
        ((processChunk s c).2).isSome = true ∧ (processChunk s c).1 = initState)
    ∧ runStream interimFlushChunks =
        [{ parts := [RespPart.text "helloworld!"], finishReason := none,
           text := "helloworld!", functionCalls := none },
         { parts := [RespPart.functionCall "f" (JSVal.obj [("x", JSVal.num 7)])],
           finishReason := some "tool_calls", text := "",
           functionCalls := some [{ name := "f", args := JSVal.obj [("x", JSVal.num 7)],
                                    id := some "id1" }] }] := by
  refine ⟨?_, ?_, ?_, rfl⟩
  · intro s c h
    simp only [processChunk] at *
    split_ifs at h ⊢ <;> simp_all [initState]
  · intro s c h
    simp only [processChunk, h]
    split_ifs <;> simp_all
  · intro s c h
    simp only [processChunk, h]
    simp

/-- Witness for C2: a concrete emitting chunk leaves an empty text
buffer. -/
theorem claim_C2_witness :
    ((processChunk initState
        { tool_calls := none, content := "helloworld!",
          finish_reason := none }).1).accumulatedText = "" :=
  claim_C2_reset_semantics.1 initState _ (by rfl)

/-- C3: whenever the configured provider is one of the openai, deepseek or
ollama aliases, auth resolution ignores both the configured auth type and
the whole environment (any Gemini key included) and resolves to the single
USE_OPENAI selection, the same for all three aliases. -/
theorem claim_C3_provider_overrides_env :
    ∀ (configuredAuthType : Option AuthType) (env : AuthEnv) (p : String),
      p = "openai" ∨ p = "deepseek" ∨ p = "ollama" →
      validateNonInteractiveAuth configuredAuthType (some p) env =
        Except.ok AuthType.USE_OPENAI := by
  intro cfg env p h
  rcases h with h | h | h <;> subst h <;> simp [validateNonInteractiveAuth, optTruthy]

/-- Witness for C3: provider ollama resolves to USE_OPENAI even with a
Gemini API key in the environment. -/
theorem claim_C3_witness :
    validateNonInteractiveAuth none (some "ollama")
      { GOOGLE_GENAI_USE_GCA := none, GOOGLE_GENAI_USE_VERTEXAI := none,
        GEMINI_API_KEY := some "gemini-key-present", OPENAI_API_KEY := none } =
      Except.ok AuthType.USE_OPENAI :=
  claim_C3_provider_overrides_env none _ "ollama" (Or.inr (Or.inr rfl))

/-- C4: with no explicit provider and no configured auth type, resolution
follows the environment in the exact priority order Google-OAuth flag,
Vertex flag, Gemini API key, OpenAI API key, and fails with the fatal
unresolved-auth exit (the process exit, not retried) when none of the
four is present. -/
theorem claim_C4_env_priority :
    ∀ env : AuthEnv,
      validateNonInteractiveAuth none none env =
        (if env.GOOGLE_GENAI_USE_GCA = some "true" then Except.ok AuthType.LOGIN_WITH_GOOGLE
         else if env.GOOGLE_GENAI_USE_VERTEXAI = some "true" then Except.ok AuthType.USE_VERTEX_AI
         else if optTruthy env.GEMINI_API_KEY then Except.ok AuthType.USE_GEMINI
         else if optTruthy env.OPENAI_API_KEY then Except.ok AuthType.USE_OPENAI
         else Except.error AuthError.unresolvedAuth) := by
  intro env
  simp only [validateNonInteractiveAuth, getAuthTypeFromEnv, optTruthy]
  split_ifs <;> simp_all

/-- Counterexample to C5 as stated: with an ollama config whose configured
base URL already ends in /v1, the factory still appends the suffix,
producing a doubled /v1/v1 path, so the suffix is not appended only when
absent. -/
theorem claim_C5_counterexample :
    strEndsWith "http://localhost:11434/v1" "/v1" = true
    ∧ createContentGenerator ollamaV1Config envNone =
        Except.ok (Generator.openaiCompat
          { apiKey := "", model := "llama2", provider := some "ollama",
            baseURL := some "http://localhost:11434/v1/v1" }) :=
  ⟨rfl, rfl⟩

/-- C5 as amended: for any ollama config, construction succeeds with an
empty API key and the factory base URL always receives the /v1 suffix
(appended unconditionally, so it always ends in /v1); the adapter-side
normalization in getOpenAI is the conditional one, appending the suffix
exactly when the configured base URL does not already end with it. -/
theorem claim_C5_ollama_base_url :
    ∀ (config : CGConfig) (env : FactoryEnv),
      jsOr (jsOrOpt config.provider env.GEMINI_PROVIDER) "gemini" = "ollama" →
      (∃ m u, createContentGenerator config env =
        Except.ok (Generator.openaiCompat
          { apiKey := "", model := m, provider := some "ollama",
            baseURL := some (u ++ "/v1") }))
      ∧ (∀ u, strEndsWith u "/v1" = true → getOpenAIBaseURL "ollama" u = u)
      ∧ (∀ u, strEndsWith u "/v1" = false →
          getOpenAIBaseURL "ollama" u = stripTrailingSlashes u ++ "/v1") := by
  intro config env h
  refine ⟨⟨strOr config.model (jsOr env.OLLAMA_MODEL "llama2"),
           jsOr (jsOrOpt config.baseURL env.OLLAMA_BASE_URL) "http://localhost:11434", ?_⟩,
          ?_, ?_⟩
  · simp only [createContentGenerator, h]
    rfl
  · intro u hu
    simp [getOpenAIBaseURL, hu]
  · intro u hu
    simp [getOpenAIBaseURL, hu]

/-- Witness for C5: the keyless ollama config builds successfully with a
/v1-suffixed base URL, and the adapter appends the suffix to a bare host
URL. -/
theorem claim_C5_witness :
    (∃ m u, createContentGenerator ollamaNoKeyConfig envNone =
      Except.ok (Generator.openaiCompat
        { apiKey := "", model := m, provider := some "ollama",
          baseURL := some (u ++ "/v1") }))
    ∧ getOpenAIBaseURL "ollama" "http://localhost:11434" =
        stripTrailingSlashes "http://localhost:11434" ++ "/v1" := by
  have h := claim_C5_ollama_base_url ollamaNoKeyConfig envNone (by rfl)
  exact ⟨h.1, h.2.2 "http://localhost:11434" (by rfl)⟩

/-- C6: a content whose parts contain a functionResponse translates to a
provider message with role tool and tool_call_id the response id, whose
content follows the payload stringification rule for every payload shape:
a string as-is, an object's output field first, else its content field,
else the serialized whole object. -/
theorem claim_C6_function_response_translation :
    ∀ (cs : List Content) (i : Nat) (c : Content), cs[i]? = some c →
      ∀ (rid : String) (resp : JSVal), findFunctionResponse c.parts = some (rid, resp) →
      (toMessages cs)[i]? =
          some { role := "tool", tool_call_id := some rid, content := responseContent resp }
      ∧ (∀ s, responseContent (JSVal.str s) = s)
      ∧ (∀ fs v, jsField "output" fs = some v →
          responseContent (JSVal.obj fs) = jsToString v)
      ∧ (∀ fs v, jsField "output" fs = none → jsField "content" fs = some v →
          responseContent (JSVal.obj fs) = jsToString v)
      ∧ (∀ fs, jsField "output" fs = none → jsField "content" fs = none →
          responseContent (JSVal.obj fs) = jsonStringify (JSVal.obj fs)) := by
  intro cs i c hc rid resp hr
  refine ⟨?_, ?_, ?_, ?_, ?_⟩
  · simp [toMessages, List.getElem?_map, hc, toMessage, hr]
  · intro s; rfl
  · intro fs v hv; simp [responseContent, hv]
  · intro fs v h1 h2; simp [responseContent, h1, h2]
  · intro fs h1 h2; simp [responseContent, h1, h2]

/-- Witness for C6: a concrete functionResponse with an output field
becomes a tool message carrying that output. -/
theorem claim_C6_witness :
    (toMessages [{ role := "user",
                   parts := [Part.functionResponse "call9"
                     (JSVal.obj [("output", JSVal.str "done")])] }])[0]? =
      some { role := "tool", tool_call_id := some "call9", content := "done" } := by
  have h := claim_C6_function_response_translation
    [{ role := "user",
       parts := [Part.functionResponse "call9" (JSVal.obj [("output", JSVal.str "done")])] }]
    0 _ rfl "call9" (JSVal.obj [("output", JSVal.str "done")]) rfl
  exact h.1

/-- C7: a fragment whose accumulated arguments text fails to parse is
emitted with an empty arguments object; every flush emits exactly the
merged fragment set through that rule (never an error value); and in the
concrete malformed-fragment scenario the stream keeps emitting past the
malformed call. -/
theorem claim_C7_parse_failure_degrades :
    (∀ tc : ToolCallFragment, jsonParse tc.arguments = none →
        (emitCall tc).args = JSVal.obj [])
    ∧ (∀ (s : StreamState) (c : Chunk) (r : GenResponse),
        (processChunk s c).2 = some r →
        r.functionCalls.getD [] = (mergeDeltas s.toolCallsBuffer c).map emitCall)
    ∧ runStream malformedChunks =
        [{ parts := [RespPart.functionCall "g" (JSVal.obj [])],
           finishReason := some "tool_calls", text := "",
           functionCalls := some [{ name := "g", args := JSVal.obj [], id := some "id9" }] },
         { parts := [RespPart.text "text after the bad call"], finishReason := none,
           text := "text after the bad call", functionCalls := none }] := by
  refine ⟨?_, ?_, rfl⟩
  · intro tc h
    simp [emitCall, h]
  · intro s c r h
    have hfc : r.functionCalls = buildFunctionCalls (mergeDeltas s.toolCallsBuffer c) := by
      simp only [processChunk] at h
      split_ifs at h <;> simp_all [buildResponse]
      all_goals rw [← h]
    rw [hfc]
    cases hbuf : mergeDeltas s.toolCallsBuffer c <;> simp [buildFunctionCalls]

/-- Witness for C7: a truncated JSON arguments text degrades to the empty
object. -/
theorem claim_C7_witness :
    (emitCall { index := 0, name := "g", arguments := "\x7b\"a\":", id := none }).args =
      JSVal.obj [] :=
  claim_C7_parse_failure_degrades.1 _ (by rfl)

/-- Counterexample to C8 as stated: a request config carrying top_k (a
member of the samplingParams vocabulary) forwards nothing at all, so a
present sampling parameter is dropped. -/
theorem claim_C8_counterexample :
    topKOnlyConfig.top_k = some 40
    ∧ buildSamplingParams (some topKOnlyConfig) = [] :=
  ⟨rfl, rfl⟩

/-- C8 as amended: only temperature, maxOutputTokens and top_p are
forwarded, temperature and top_p under their own names and maxOutputTokens
as max_tokens, each exactly when present and never defaulted; no other
sampling parameter is ever forwarded. -/
theorem claim_C8_sampling_forwarding :
    ∀ cfg : RequestConfig,
      (buildSamplingParams (some cfg)).lookup "temperature" = cfg.temperature
      ∧ (buildSamplingParams (some cfg)).lookup "max_tokens" = cfg.maxOutputTokens
      ∧ (buildSamplingParams (some cfg)).lookup "top_p" = cfg.top_p
      ∧ (∀ k v, (k, v) ∈ buildSamplingParams (some cfg) →
          k = "temperature" ∨ k = "max_tokens" ∨ k = "top_p")
      ∧ buildSamplingParams none = [] := by
  intro cfg
  obtain ⟨t, m, p, _, _, _, _⟩ := cfg
  refine ⟨?_, ?_, ?_, ?_, rfl⟩
  · cases t <;> cases m <;> cases p <;> simp [buildSamplingParams, List.lookup]
  · cases t <;> cases m <;> cases p <;> simp [buildSamplingParams, List.lookup]
  · cases t <;> cases m <;> cases p <;> simp [buildSamplingParams, List.lookup]
  · intro k v h
    cases t <;> cases m <;> cases p <;> simp_all [buildSamplingParams] <;> tauto

/-- Witness for C8: a concrete config with all three handled parameters
present forwards maxOutputTokens under the max_tokens name. -/
theorem claim_C8_witness :
    (buildSamplingParams
        (some ⟨some 1, some 512, some 2, none, none, none, none⟩)).lookup "max_tokens" =
      some 512 :=
  (claim_C8_sampling_forwarding ⟨some 1, some 512, some 2, none, none, none, none⟩).2.1

/-- Counterexample to C9 as stated: a request carrying strictly more total
input text (11 characters against 8) can receive a strictly smaller token
count, because the estimate reads only the first part of the first
content. -/
theorem claim_C9_counterexample :
    (totalInputText reqSingle).length ≤ (totalInputText reqSplit).length
    ∧ countTokens reqSplit < countTokens reqSingle :=
  ⟨by decide, by decide⟩

/-- C9 as amended: countTokens is monotonic non-decreasing in the length
of the text it measures, the first text part of the first content. -/
theorem claim_C9_monotone :
    ∀ (r1 r2 : List Content),
      (countTokensText r1).length ≤ (countTokensText r2).length →
      countTokens r1 ≤ countTokens r2 := by
  intro r1 r2 h
  exact Nat.div_le_div_right (Nat.add_le_add_right h 3)

/-- Witness for C9: the request whose measured text is 1 character gets at
most the tokens of the request measuring 8 characters. -/
theorem claim_C9_witness :
    countTokens reqSplit ≤ countTokens reqSingle :=
  claim_C9_monotone reqSplit reqSingle (by decide)

/-- C10: whenever a flush emits function calls, the top-level
functionCalls field lists every merged fragment, while the emitted parts
array carries exactly one functionCall part, built from the first call
only — later calls never appear among the parts. -/
theorem claim_C10_first_call_only :
    ∀ (s : StreamState) (c : Chunk) (r : GenResponse)
      (fc0 : FunctionCall) (rest : List FunctionCall),
      (processChunk s c).2 = some r →
      r.functionCalls = some (fc0 :: rest) →
      r.functionCalls = buildFunctionCalls (mergeDeltas s.toolCallsBuffer c)
      ∧ respPartCalls r.parts = [RespPart.functionCall fc0.name fc0.args] := by
  intro s c r fc0 rest h hfc
  have hr : r = buildResponse (nextText s.accumulatedText c)
      (buildFunctionCalls (mergeDeltas s.toolCallsBuffer c)) c.finish_reason := by
    simp only [processChunk] at h
    split_ifs at h <;> simp_all [buildResponse]
  subst hr
  constructor
  · simp [buildResponse]
  · simp only [buildResponse, buildParts] at hfc ⊢
    rw [hfc] at *
    simp only [hfc]
    by_cases ht : nextText s.accumulatedText c ≠ ""
    · simp [ht, respPartCalls, hfc]
    · simp_all [respPartCalls, hfc]

/-- Witness for C10: a completion flush over two buffered fragments lists
both calls at top level but renders only the first as a part. -/
theorem claim_C10_witness :
    twoCallResponse.functionCalls =
      buildFunctionCalls (mergeDeltas twoFragState.toolCallsBuffer doneChunk)
    ∧ respPartCalls twoCallResponse.parts = [RespPart.functionCall "f1" (JSVal.obj [])] :=
  claim_C10_first_call_only twoFragState doneChunk twoCallResponse
    { name := "f1", args := JSVal.obj [], id := some "a" }
    [{ name := "f2", args := JSVal.obj [], id := some "b" }]
    (by rfl) (by rfl)

end QwenCode
